import Mathlib

set_option maxHeartbeats 1000000
set_option autoImplicit false

/-!
# Verification of the agentic-control crew tool

Shallow embedding of the subprocess invocation engine of the
`agentic-dev-library/control` repository:

* the zod validation schemas `CrewToolConfigSchema` and
  `InvokeCrewOptionsSchema` with their `validateConfig` /
  `validateInvokeOptions` entry points (`src/crews/types.ts`),
* the `CrewToolError` class and the `CrewTool.invokeCrew` implementation
  given in the design document (`invokeCrew` body, the "Subprocess
  Execution" and "Timeout Implementation" notes),
* the environment composition passed to `spawn`.

Untyped JavaScript values are modelled by `JVal`; zod numbers are modelled
by `Int` (every value the claims mention is integral).  Fallible
validation returns `Except (List ZodIssue) _` where a `ZodIssue` carries
the issue path and the zod v3 default message text (or the custom regex
message that `types.ts` supplies).
-/

/-- A JSON-like untyped JavaScript value, as handed to the zod validators. -/
inductive JVal where
  | jstr (s : String)
  | jnum (n : Int)
  | jbool (b : Bool)
  | jnull
  | jobj (fields : List (String × JVal))
  | jarr (elems : List JVal)

/-- The `received` type name zod reports for a value (`typeof`-style). -/
def jTypeName : JVal → String
  | .jstr _ => "string"
  | .jnum _ => "number"
  | .jbool _ => "boolean"
  | .jnull => "null"
  | .jobj _ => "object"
  | .jarr _ => "array"

/-- One zod validation issue: the path of the offending field and the
message text. -/
structure ZodIssue where
  path : List String
  message : String
deriving DecidableEq, Repr

/-- First-match lookup of a key in a JS object's field list (JS objects
have unique keys). -/
def lookupField : List (String × JVal) → String → Option JVal
  | [], _ => none
  | (k, v) :: tl, key => if key = k then some v else lookupField tl key

/-- One character of the identifier character class `[a-zA-Z0-9_-]` used by
the `package`/`crew` regexes in `types.ts`. -/
def isIdentChar (c : Char) : Bool :=
  c.isAlpha || c.isDigit || c == '_' || c == '-'

/-- `/^[a-zA-Z0-9_-]+$/.test s` : non-empty and every character in the
class (JS `$` without the `m` flag matches only the very end of the
string, so this is exact). -/
def identOk (s : String) : Bool :=
  !s.data.isEmpty && s.data.all isIdentChar

/-- Combine two zod field checks, collecting the issues of both (zod
gathers all issues of an object parse before throwing). -/
def collect2 {α β : Type} :
    Except (List ZodIssue) α → Except (List ZodIssue) β →
    Except (List ZodIssue) (α × β)
  | .ok a, .ok b => .ok (a, b)
  | .error e, .ok _ => .error e
  | .ok _, .error e => .error e
  | .error e1, .error e2 => .error (e1 ++ e2)

/-- Custom regex message for the `package` field (`types.ts` line 79). -/
def pkgMsg : String := "Package name must be alphanumeric with hyphens or underscores"

/-- Custom regex message for the `crew` field (`types.ts` line 80). -/
def crewMsg : String := "Crew name must be alphanumeric with hyphens or underscores"

/-- `z.string().min(1).regex(/^[a-zA-Z0-9_-]+$/, msg)` applied to a field:
zod runs both string checks and collects their issues. -/
def checkIdentField (fields : List (String × JVal)) (key regexMsg : String) :
    Except (List ZodIssue) String :=
  match lookupField fields key with
  | none => .error [⟨[key], "Required"⟩]
  | some (.jstr s) =>
      let issues :=
        (if s.data.isEmpty then
          [({ path := [key],
              message := "String must contain at least 1 character(s)" } : ZodIssue)]
        else []) ++
        (if identOk s then [] else [({ path := [key], message := regexMsg } : ZodIssue)])
      if issues.isEmpty then .ok s else .error issues
  | some v => .error [⟨[key], "Expected string, received " ++ jTypeName v⟩]

/-- `z.string()` applied to a required field. -/
def checkStringField (fields : List (String × JVal)) (key : String) :
    Except (List ZodIssue) String :=
  match lookupField fields key with
  | none => .error [⟨[key], "Required"⟩]
  | some (.jstr s) => .ok s
  | some v => .error [⟨[key], "Expected string, received " ++ jTypeName v⟩]

/-- `z.number().positive().optional()` applied to a field. -/
def checkPosNumOpt (fields : List (String × JVal)) (key : String) :
    Except (List ZodIssue) (Option Int) :=
  match lookupField fields key with
  | none => .ok none
  | some (.jnum n) =>
      if 0 < n then .ok (some n)
      else .error [⟨[key], "Number must be greater than 0"⟩]
  | some v => .error [⟨[key], "Expected number, received " ++ jTypeName v⟩]

/-- The entries of a `z.record(z.string(), z.string())` value: every value
must be a string; issues are collected per entry. -/
def checkEnvEntries (key : String) :
    List (String × JVal) → Except (List ZodIssue) (List (String × String))
  | [] => .ok []
  | (k, .jstr s) :: tl =>
      match checkEnvEntries key tl with
      | .ok rest => .ok ((k, s) :: rest)
      | .error es => .error es
  | (k, v) :: tl =>
      match checkEnvEntries key tl with
      | .ok _ => .error [⟨[key, k], "Expected string, received " ++ jTypeName v⟩]
      | .error es =>
          .error (⟨[key, k], "Expected string, received " ++ jTypeName v⟩ :: es)

/-- `z.record(z.string(), z.string()).optional()` applied to a field. -/
def checkEnvOpt (fields : List (String × JVal)) (key : String) :
    Except (List ZodIssue) (Option (List (String × String))) :=
  match lookupField fields key with
  | none => .ok none
  | some (.jobj efields) => (checkEnvEntries key efields).map some
  | some v => .error [⟨[key], "Expected object, received " ++ jTypeName v⟩]

/-- `z.string().default dflt` applied to a field: a missing field takes the
default value. -/
def checkStrDefault (fields : List (String × JVal)) (key dflt : String) :
    Except (List ZodIssue) String :=
  match lookupField fields key with
  | none => .ok dflt
  | some (.jstr s) => .ok s
  | some v => .error [⟨[key], "Expected string, received " ++ jTypeName v⟩]

/-- `z.string().optional()` applied to a field. -/
def checkStrOpt (fields : List (String × JVal)) (key : String) :
    Except (List ZodIssue) (Option String) :=
  match lookupField fields key with
  | none => .ok none
  | some (.jstr s) => .ok (some s)
  | some v => .error [⟨[key], "Expected string, received " ++ jTypeName v⟩]

/-- `z.number().positive().default dflt` applied to a field. -/
def checkPosNumDefault (fields : List (String × JVal)) (key : String) (dflt : Int) :
    Except (List ZodIssue) Int :=
  match lookupField fields key with
  | none => .ok dflt
  | some (.jnum n) =>
      if 0 < n then .ok n
      else .error [⟨[key], "Number must be greater than 0"⟩]
  | some v => .error [⟨[key], "Expected number, received " ++ jTypeName v⟩]

/-- The normalized crew tool configuration (`CrewToolConfig` after
`CrewToolConfigSchema.parse`). -/
structure CrewToolConfig where
  pythonExecutable : String
  crewAgentsPath : Option String
  defaultTimeout : Int
  env : Option (List (String × String))
deriving DecidableEq, Repr

/-- A validated invocation request (`InvokeCrewOptions` after
`InvokeCrewOptionsSchema.parse`). -/
structure InvokeCrewOptions where
  package : String
  crew : String
  input : String
  timeout : Option Int
  env : Option (List (String × String))
deriving DecidableEq, Repr

/-- `CrewToolConfigSchema.parse` (`types.ts` lines 68-73): unknown fields
are stripped, `pythonExecutable` defaults to `"uv"`, `defaultTimeout`
defaults to `300000` and must be positive when present. -/
def decodeConfig : JVal → Except (List ZodIssue) CrewToolConfig
  | .jobj fields =>
      match collect2
          (collect2 (checkStrDefault fields "pythonExecutable" "uv")
                    (checkStrOpt fields "crewAgentsPath"))
          (collect2 (checkPosNumDefault fields "defaultTimeout" 300000)
                    (checkEnvOpt fields "env")) with
      | .ok x => .ok ⟨x.1.1, x.1.2, x.2.1, x.2.2⟩
      | .error es => .error es
  | v => .error [⟨[], "Expected object, received " ++ jTypeName v⟩]

/-- `validateConfig` (`types.ts` lines 89-91). -/
def validateConfig (v : JVal) : Except (List ZodIssue) CrewToolConfig :=
  decodeConfig v

/-- `InvokeCrewOptionsSchema.parse` as a typed decoding (`types.ts` lines
78-84). -/
def decodeInvokeOptions : JVal → Except (List ZodIssue) InvokeCrewOptions
  | .jobj fields =>
      match collect2
          (collect2 (checkIdentField fields "package" pkgMsg)
                    (checkIdentField fields "crew" crewMsg))
          (collect2 (checkStringField fields "input")
                    (collect2 (checkPosNumOpt fields "timeout")
                              (checkEnvOpt fields "env"))) with
      | .ok x => .ok ⟨x.1.1, x.1.2, x.2.1, x.2.2.1, x.2.2.2⟩
      | .error es => .error es
  | v => .error [⟨[], "Expected object, received " ++ jTypeName v⟩]

/-- The JS object a validated `InvokeCrewOptions` record corresponds to
(zod rebuilds the parsed object with exactly the schema keys, optional
keys omitted when absent). -/
def encodeInvokeOptions (o : InvokeCrewOptions) : JVal :=
  .jobj ([("package", .jstr o.package), ("crew", .jstr o.crew),
          ("input", .jstr o.input)] ++
    (match o.timeout with
     | some t => [("timeout", JVal.jnum t)]
     | none => []) ++
    (match o.env with
     | some e => [("env", JVal.jobj (e.map fun kv => (kv.1, JVal.jstr kv.2)))]
     | none => []))

/-- `validateInvokeOptions` (`types.ts` lines 96-98): parse and return the
(re-built) options object. -/
def validateInvokeOptions (v : JVal) : Except (List ZodIssue) JVal :=
  (decodeInvokeOptions v).map encodeInvokeOptions

/-- The constraints `InvokeCrewOptionsSchema` enforces, stated over the
typed record. -/
def optionsValid (o : InvokeCrewOptions) : Bool :=
  identOk o.package && identOk o.crew &&
    (match o.timeout with
     | some t => decide (0 < t)
     | none => true)

/-- The five-way error taxonomy of `CrewToolError` (design document, Error
Handling Strategy). -/
inductive ErrorCategory where
  | config | validation | subprocess | crew | communication
deriving DecidableEq, Repr

/-- The observable state of a constructed `CrewToolError`: an `Error`
subclass whose `super(message)` call sets `message` and whose body sets
`name`, `category` and `details`. -/
structure CrewToolErrorData where
  name : String
  message : String
  category : ErrorCategory
  details : Option (List (String × JVal))

/-- `new CrewToolError(message, category, details)` (design document,
lines 483-492). -/
def mkCrewToolError (message : String) (category : ErrorCategory)
    (details : Option (List (String × JVal))) : CrewToolErrorData :=
  { name := "CrewToolError", message := message, category := category,
    details := details }

/-- Render a list of zod issues into one human-readable message. -/
def renderIssues (issues : List ZodIssue) : String :=
  String.intercalate "; " (issues.map ZodIssue.message)

/-- Modelled from the spec: the body of the `CrewTool.validateOptions`
method called at the top of `invokeCrew` is not in the repository snapshot
(only the `validateInvokeOptions` zod entry point in `types.ts` is).  Per
the spec, request-shape failures are "raised synchronously" as an error of
"category: validation" before any process is spawned, so `validateOptions`
is modelled as running `InvokeCrewOptionsSchema` and raising a
`CrewToolError` of category `validation` carrying the issue messages. -/
def validateOptions (v : JVal) : Except CrewToolErrorData InvokeCrewOptions :=
  match decodeInvokeOptions v with
  | .ok o => .ok o
  | .error issues => .error (mkCrewToolError (renderIssues issues) .validation none)

/-- The behavior of one child process, the nondeterministic environment the
supervisor races against.  Times are in milliseconds from the spawn. -/
structure ProcBehavior where
  /-- Whether process creation itself succeeds.  When it does not, Node
  emits an `error` event on the `ChildProcess` and the `exit` event never
  fires. -/
  spawnOk : Bool
  /-- Data chunks the process writes to standard output, in arrival order. -/
  stdoutChunks : List String
  /-- Data chunks the process writes to standard error, in arrival order. -/
  stderrChunks : List String
  /-- The time and exit code of the process's natural exit, when it would
  exit on its own; `none` in the code slot models a `null` exit code. -/
  natExit : Option (Int × Option Int)
  /-- If the process responds to a graceful `SIGTERM`, how long after the
  signal it exits; `none` means it ignores `SIGTERM`. -/
  termDelay : Option Int
  /-- The exit code the process reports when it exits due to `SIGTERM`
  (`none` models `null`, death by signal). -/
  termCode : Option Int

/-- Fixed forced-kill grace interval: `setTimeout(() => proc.kill('SIGKILL'),
5000)` (design document, Timeout Implementation). -/
def graceMs : Int := 5000

/-- The result record `invokeCrew` resolves with (`CrewResult` in
`types.ts` lines 40-51): `output` is present only in the success branch
and `error` only in the failure branch of the result construction
(`invokeCrew`, lines 527-542). -/
structure CrewResult where
  success : Bool
  output : Option String
  error : Option String
  exitCode : Option Int
  duration : Int
deriving DecidableEq, Repr

/-- Side effects of one invocation, for claims about what happens before
or after the validators run. -/
inductive Event where
  | spawned (exe : String) (args : List String)
  | sigterm (t : Int)
  | sigkill (t : Int)
deriving DecidableEq, Repr

/-- How one `invokeCrew` call ends. -/
inductive Outcome where
  /-- The returned promise resolves with a `CrewResult`. -/
  | result (r : CrewResult)
  /-- `invokeCrew` raises a `CrewToolError`. -/
  | thrown (e : CrewToolErrorData)
  /-- An `error` event fired on the child process with no listener
  installed: Node raises it as an uncaught exception and the `await` on
  the exit promise never resolves, so the call produces no result at all. -/
  | uncaughtError

/-- `options.timeout ?? this.config.defaultTimeout` (`invokeCrew`, line
508): the override, when present, fully replaces the default. -/
def effectiveTimeout (opts : InvokeCrewOptions) (cfg : CrewToolConfig) : Int :=
  match opts.timeout with
  | some t => t
  | none => cfg.defaultTimeout

/-- The argument vector passed to `spawn` (`invokeCrew`, lines 501-505). -/
def spawnArgs (opts : InvokeCrewOptions) : List String :=
  ["run", "crew-agents", "run", opts.package, opts.crew, "--input", opts.input]

/-- The collected standard output: chunks concatenated in arrival order. -/
def collectedStdout (b : ProcBehavior) : String := String.join b.stdoutChunks

/-- The collected standard error: chunks concatenated in arrival order. -/
def collectedStderr (b : ProcBehavior) : String := String.join b.stderrChunks

/-- JS `String.prototype.trim`: strip leading and trailing whitespace. -/
def jsTrim (s : String) : String :=
  ⟨((s.data.dropWhile Char.isWhitespace).reverse.dropWhile Char.isWhitespace).reverse⟩

/-- The earlier of two (time, exit code) exit candidates. -/
def earlier (a b : Int × Option Int) : Int × Option Int :=
  if a.1 ≤ b.1 then a else b

/-- Exit time and reported code of a process that is still running when
the deadline timer fires at `tmo`: `SIGTERM` is sent at `tmo` and
`SIGKILL` at `tmo + graceMs`; the process ends at the earliest of its
natural exit, its response to `SIGTERM` within grace, and the forced kill
(which reports a `null` code, death by signal). -/
def postTermExit (tmo : Int) (b : ProcBehavior) : Int × Option Int :=
  let forced : Int × Option Int := (tmo + graceMs, none)
  let afterTerm :=
    match b.termDelay with
    | some d => if d < graceMs then earlier (tmo + d, b.termCode) forced else forced
    | none => forced
  match b.natExit with
  | some tc => earlier tc afterTerm
  | none => afterTerm

/-- Building the `CrewResult` once the exit promise has resolved
(`invokeCrew`, lines 527-542): `code` is the already-defaulted
`code ?? 1` value, `endTime` the elapsed time at resolution.  Exit code 0
succeeds with the trimmed collected stdout; any other code fails with the
collected stderr when non-empty (JS `stderr || 'Crew execution failed'`)
and the generic message otherwise. -/
def buildResult (b : ProcBehavior) (code : Int) (endTime : Int) : CrewResult :=
  if code = 0 then
    { success := true, output := some (jsTrim (collectedStdout b)),
      error := none, exitCode := some code, duration := endTime }
  else
    { success := false, output := none,
      error := some (if collectedStderr b = "" then "Crew execution failed"
                     else collectedStderr b),
      exitCode := some code, duration := endTime }

/-- One run of `CrewTool.invokeCrew` (design document lines 495-554
combined with the Timeout Implementation note, lines 1005-1014), against a
given child-process behavior.  Returns the outcome together with the
process-level side effects, in order.

* `validateOptions` runs first; on failure the raised `CrewToolError`
  propagates (the `catch` block re-throws `CrewToolError` instances
  unchanged) and nothing is spawned.
* On spawn failure Node emits an `error` event on the child process.  The
  code installs listeners only for `stdout data`, `stderr data` and
  `exit`, so the event is unhandled: the `await` never resolves and the
  error escapes as an uncaught exception — no `CrewResult` is produced.
* Otherwise the exit promise races the deadline timer set to the
  effective timeout.  A natural exit at or before the deadline clears the
  timer and builds the result from the reported code (`code ?? 1`).  If
  the timer fires first, `SIGTERM` is sent, `SIGKILL` follows `graceMs`
  later (the inner timer is never cleared), and the result is built from
  whatever exit the kill sequence produces. -/
def invokeCrewRun (cfg : CrewToolConfig) (raw : JVal) (b : ProcBehavior) :
    Outcome × List Event :=
  match validateOptions raw with
  | .error e => (.thrown e, [])
  | .ok opts =>
    if b.spawnOk then
      match b.natExit with
      | some tc =>
        if tc.1 ≤ effectiveTimeout opts cfg then
          (.result (buildResult b (tc.2.getD 1) tc.1),
           [.spawned cfg.pythonExecutable (spawnArgs opts)])
        else
          (.result (buildResult b
              ((postTermExit (effectiveTimeout opts cfg) b).2.getD 1)
              (postTermExit (effectiveTimeout opts cfg) b).1),
           [.spawned cfg.pythonExecutable (spawnArgs opts),
            .sigterm (effectiveTimeout opts cfg),
            .sigkill (effectiveTimeout opts cfg + graceMs)])
      | none =>
          (.result (buildResult b
              ((postTermExit (effectiveTimeout opts cfg) b).2.getD 1)
              (postTermExit (effectiveTimeout opts cfg) b).1),
           [.spawned cfg.pythonExecutable (spawnArgs opts),
            .sigterm (effectiveTimeout opts cfg),
            .sigkill (effectiveTimeout opts cfg + graceMs)])
    else
      (.uncaughtError, [.spawned cfg.pythonExecutable (spawnArgs opts)])

/-- An environment is a partial map from variable names to values. -/
def EnvMap : Type := String → Option String

/-- JS object spread `{ ...base, ...extra }` on string maps: entries of
`extra` win on key collision. -/
def overlayEnv (base extra : EnvMap) : EnvMap :=
  fun k => match extra k with
  | some v => some v
  | none => base k

/-- The map held by a `Record<string, string>` value. -/
def envOfList : List (String × String) → EnvMap
  | [] => fun _ => none
  | (k, v) :: tl => fun q => if q = k then some v else envOfList tl q

/-- The map of an optional `Record<string, string>` field (absent means no
entries). -/
def optEnv (o : Option (List (String × String))) : EnvMap :=
  match o with
  | some l => envOfList l
  | none => fun _ => none

/-- The environment the spawned child observes:
`env: { ...process.env, ...additionalEnv }` (design document, Subprocess
Execution, lines 975-985).  Modelled from the spec: `additionalEnv` is
not defined in that snippet; per the spec it is "config.baseEnv merged
with request.extraEnv, with extraEnv entries taking precedence on key
collision", here `{ ...cfg.env, ...opts.env }`. -/
def childEnv (ambient : EnvMap) (cfg : CrewToolConfig)
    (opts : InvokeCrewOptions) : EnvMap :=
  overlayEnv ambient (overlayEnv (optEnv cfg.env) (optEnv opts.env))

/-- Whether `pat` occurs at the head of `s`. -/
def leadsWith : List Char → List Char → Bool
  | [], _ => true
  | _ :: _, [] => false
  | p :: ps, c :: cs => (p = c) && leadsWith ps cs

/-- Whether `pat` occurs anywhere in `s`. -/
def hasSub (pat : List Char) : List Char → Bool
  | [] => pat.isEmpty
  | c :: tl => leadsWith pat (c :: tl) || hasSub pat tl

/-- Whether the string `pat` occurs as a substring of `s`. -/
def containsStr (s pat : String) : Bool := hasSub pat.data s.data

/-- Whether a key is one of the four `CrewToolConfigSchema` keys. -/
def isSchemaConfigKey (k : String) : Bool :=
  (k == "pythonExecutable") || (k == "crewAgentsPath") ||
  (k == "defaultTimeout") || (k == "env")

/-! ## Concrete fixtures used by witnesses and counterexamples -/

/-- Engine configuration whose executable path does not exist. -/
def cfgBadExe : CrewToolConfig :=
  { pythonExecutable := "/nonexistent/uv", crewAgentsPath := none,
    defaultTimeout := 5000, env := none }

/-- A default-shaped engine configuration. -/
def cfgStd : CrewToolConfig :=
  { pythonExecutable := "uv", crewAgentsPath := some "./python",
    defaultTimeout := 300000, env := none }

/-- An engine configuration with base environment `{A: "1"}`. -/
def cfgEnvA : CrewToolConfig :=
  { pythonExecutable := "uv", crewAgentsPath := none,
    defaultTimeout := 300000, env := some [("A", "1")] }

/-- A well-formed invocation request object. -/
def rawOptsDemo : JVal :=
  .jobj [("package", .jstr "demo"), ("crew", .jstr "main"),
         ("input", .jstr "x")]

/-- A well-formed request object carrying a 1000 ms timeout override. -/
def rawOptsTimeout1000 : JVal :=
  .jobj [("package", .jstr "test-package"), ("crew", .jstr "test-crew"),
         ("input", .jstr "test"), ("timeout", .jnum 1000)]

/-- A typed request with no overrides. -/
def optsDemo : InvokeCrewOptions :=
  { package := "demo", crew := "main", input := "x", timeout := none,
    env := none }

/-- A typed request with a 50 ms timeout override. -/
def optsOverride50 : InvokeCrewOptions :=
  { package := "demo", crew := "main", input := "x", timeout := some 50,
    env := none }

/-- A typed request with extra environment `{A: "2", B: "3"}`. -/
def optsEnvAB : InvokeCrewOptions :=
  { package := "demo", crew := "main", input := "x", timeout := none,
    env := some [("A", "2"), ("B", "3")] }

/-- Process creation fails (`ENOENT`): `error` event, no exit. -/
def behaviorSpawnFail : ProcBehavior :=
  { spawnOk := false, stdoutChunks := [], stderrChunks := [],
    natExit := none, termDelay := none, termCode := none }

/-- A process that runs forever, ignores `SIGTERM` and writes nothing. -/
def behaviorHangs : ProcBehavior :=
  { spawnOk := true, stdoutChunks := [], stderrChunks := [],
    natExit := none, termDelay := none, termCode := none }

/-- A long-running cooperative process: never exits on its own but dies
immediately on `SIGTERM` (reporting a `null` code). -/
def behaviorLongCooperative : ProcBehavior :=
  { spawnOk := true, stdoutChunks := [], stderrChunks := [],
    natExit := none, termDelay := some 0, termCode := none }

/-- A process exiting 0 at 40 ms after writing padded standard output. -/
def behaviorExit0 : ProcBehavior :=
  { spawnOk := true, stdoutChunks := ["  hello", " world\n"],
    stderrChunks := [], natExit := some (40, some 0), termDelay := none,
    termCode := none }

/-- A process exiting 2 at 40 ms after writing "boom" to standard error. -/
def behaviorExit2 : ProcBehavior :=
  { spawnOk := true, stdoutChunks := [], stderrChunks := ["boom"],
    natExit := some (40, some 2), termDelay := none, termCode := none }

/-! ## Helper lemmas -/

theorem collect2_ok_iff {α β : Type} {x : Except (List ZodIssue) α}
    {y : Except (List ZodIssue) β} {p : α × β} :
    collect2 x y = .ok p ↔ x = .ok p.1 ∧ y = .ok p.2 := by
  obtain ⟨p1, p2⟩ := p
  cases x <;> cases y <;> simp [collect2]

theorem identOk_not_empty {s : String} (h : identOk s = true) :
    s.data.isEmpty = false := by
  rw [identOk, Bool.and_eq_true, Bool.not_eq_true'] at h
  exact h.1

theorem checkIdentField_ok {fields : List (String × JVal)}
    {key msg s : String} (h : checkIdentField fields key msg = .ok s) :
    identOk s = true := by
  unfold checkIdentField at h
  split at h
  · exact absurd h (by simp)
  · next s' heq =>
    by_cases hid : identOk s' = true
    · have hne : s'.data.isEmpty = false := identOk_not_empty hid
      simp only [hne, hid, if_true, if_false, List.append_nil, List.isEmpty_nil] at h
      cases h
      exact hid
    · cases hse : s'.data.isEmpty <;> simp [hid, hse] at h
  · exact absurd h (by simp)

theorem checkPosNumOpt_ok {fields : List (String × JVal)} {key : String}
    {t : Option Int} (h : checkPosNumOpt fields key = .ok t) :
    t = none ∨ ∃ n, t = some n ∧ 0 < n := by
  unfold checkPosNumOpt at h
  split at h
  · cases h; exact Or.inl rfl
  · split at h
    · next hn => cases h; exact Or.inr ⟨_, rfl, hn⟩
    · exact absurd h (by simp)
  · exact absurd h (by simp)

theorem checkEnvEntries_map (key : String) (l : List (String × String)) :
    checkEnvEntries key (l.map fun kv => (kv.1, JVal.jstr kv.2)) = .ok l := by
  induction l with
  | nil => rfl
  | cons hd tl ih =>
    obtain ⟨k, v⟩ := hd
    simp [checkEnvEntries, ih]

theorem identOk_checkIdentField {fields : List (String × JVal)}
    {key msg s : String} (hl : lookupField fields key = some (.jstr s))
    (h : identOk s = true) : checkIdentField fields key msg = .ok s := by
  have hne : s.data.isEmpty = false := identOk_not_empty h
  unfold checkIdentField
  rw [hl]
  simp [h, hne]

theorem decode_encode (o : InvokeCrewOptions) (h : optionsValid o = true) :
    decodeInvokeOptions (encodeInvokeOptions o) = .ok o := by
  obtain ⟨p, c, i, t, e⟩ := o
  rw [optionsValid, Bool.and_eq_true, Bool.and_eq_true] at h
  obtain ⟨⟨hp, hc⟩, ht⟩ := h
  have hpe : p.data.isEmpty = false := identOk_not_empty hp
  have hce : c.data.isEmpty = false := identOk_not_empty hc
  cases t with
  | none =>
    cases e with
    | none =>
      simp [encodeInvokeOptions, decodeInvokeOptions, lookupField,
            checkIdentField, checkStringField, checkPosNumOpt, checkEnvOpt,
            collect2, hp, hc, hpe, hce]
    | some l =>
      simp [encodeInvokeOptions, decodeInvokeOptions, lookupField,
            checkIdentField, checkStringField, checkPosNumOpt, checkEnvOpt,
            collect2, hp, hc, hpe, hce, checkEnvEntries_map, Except.map]
  | some tv =>
    have htv : 0 < tv := by simpa using ht
    cases e with
    | none =>
      simp [encodeInvokeOptions, decodeInvokeOptions, lookupField,
            checkIdentField, checkStringField, checkPosNumOpt, checkEnvOpt,
            collect2, hp, hc, hpe, hce, htv]
    | some l =>
      simp [encodeInvokeOptions, decodeInvokeOptions, lookupField,
            checkIdentField, checkStringField, checkPosNumOpt, checkEnvOpt,
            collect2, hp, hc, hpe, hce, htv, checkEnvEntries_map, Except.map]

theorem decode_valid {v : JVal} {o : InvokeCrewOptions}
    (h : decodeInvokeOptions v = .ok o) : optionsValid o = true := by
  cases v with
  | jobj fields =>
    simp only [decodeInvokeOptions] at h
    split at h
    · next x heq =>
      obtain ⟨⟨xp, xc⟩, xi, xt, xe⟩ := x
      cases h
      obtain ⟨h1, h2⟩ := collect2_ok_iff.mp heq
      obtain ⟨h11, h12⟩ := collect2_ok_iff.mp h1
      obtain ⟨h21, h22⟩ := collect2_ok_iff.mp h2
      obtain ⟨h221, h222⟩ := collect2_ok_iff.mp h22
      have hp := checkIdentField_ok h11
      have hc := checkIdentField_ok h12
      have ht := checkPosNumOpt_ok h221
      rw [optionsValid]
      rcases ht with h' | ⟨n, hn, hpos⟩ <;>
        simp_all
    · exact absurd h (by simp)
  | jstr s => exact absurd h (by simp [decodeInvokeOptions])
  | jnum n => exact absurd h (by simp [decodeInvokeOptions])
  | jbool b => exact absurd h (by simp [decodeInvokeOptions])
  | jnull => exact absurd h (by simp [decodeInvokeOptions])
  | jarr l => exact absurd h (by simp [decodeInvokeOptions])

theorem buildResult_mutex (b : ProcBehavior) (code endTime : Int) :
    ((buildResult b code endTime).success = true ↔
      ((buildResult b code endTime).output.isSome ∧
       (buildResult b code endTime).error = none)) ∧
    ((buildResult b code endTime).success = false ↔
      ((buildResult b code endTime).error.isSome ∧
       (buildResult b code endTime).output = none)) := by
  by_cases hc : code = 0 <;> simp [buildResult, hc]

theorem collect2_error_left {α β : Type} {x : Except (List ZodIssue) α}
    (y : Except (List ZodIssue) β) {es : List ZodIssue} (h : x = .error es) :
    ∃ es2, collect2 x y = .error es2 := by
  subst h
  cases y <;> simp [collect2]

theorem collect2_error_right {α β : Type} (x : Except (List ZodIssue) α)
    {y : Except (List ZodIssue) β} {es : List ZodIssue} (h : y = .error es) :
    ∃ es2, collect2 x y = .error es2 := by
  subst h
  cases x <;> simp [collect2]

theorem checkIdentField_bad {fields : List (String × JVal)} {key s : String}
    (msg : String) (hl : lookupField fields key = some (.jstr s))
    (hbad : identOk s = false) :
    ∃ es, checkIdentField fields key msg = .error es := by
  unfold checkIdentField
  rw [hl]
  cases hse : s.data.isEmpty <;> simp [hbad, hse]

/-- Claim C5: for every result `invokeCrew` produces, exactly one of
`output` and `error` is populated, as dictated by `success`: `success` is
true iff `output` is defined and `error` undefined, and false iff `error`
is defined and `output` undefined. -/
theorem c5_result_mutual_exclusion (cfg : CrewToolConfig) (raw : JVal)
    (b : ProcBehavior) (r : CrewResult) (ev : List Event)
    (h : invokeCrewRun cfg raw b = (.result r, ev)) :
    (r.success = true ↔ (r.output.isSome ∧ r.error = none)) ∧
    (r.success = false ↔ (r.error.isSome ∧ r.output = none)) := by
  simp only [invokeCrewRun] at h
  split at h
  · exact absurd h (by simp)
  · split at h
    · split at h
      · split at h
        · rw [Prod.mk.injEq] at h
          obtain ⟨h1, -⟩ := h
          injection h1 with h1
          subst h1
          exact buildResult_mutex ..
        · rw [Prod.mk.injEq] at h
          obtain ⟨h1, -⟩ := h
          injection h1 with h1
          subst h1
          exact buildResult_mutex ..
      · rw [Prod.mk.injEq] at h
        obtain ⟨h1, -⟩ := h
        injection h1 with h1
        subst h1
        exact buildResult_mutex ..
    · exact absurd h (by simp)

/-- Witness for C5: the mutual-exclusion invariant evaluated on a concrete
successful run. -/
theorem c5_result_mutual_exclusion_witness :
    ∃ r, (invokeCrewRun cfgStd rawOptsDemo behaviorExit0).1 = Outcome.result r ∧
      ((r.success = true ↔ (r.output.isSome ∧ r.error = none)) ∧
       (r.success = false ↔ (r.error.isSome ∧ r.output = none))) := by
  refine ⟨(buildResult behaviorExit0 0 40), rfl, ?_⟩
  exact c5_result_mutual_exclusion cfgStd rawOptsDemo behaviorExit0 _ _ rfl

/-- Claim C3: a request whose `package` or `crew` identifier is an empty
string or fails `^[A-Za-z0-9_-]+$` makes `invokeCrew` raise an error of
category `validation` synchronously, with no process-spawning side effect
(the event trace is empty, so no child process is ever started). -/
theorem c3_validation_precedes_spawn (cfg : CrewToolConfig) (b : ProcBehavior)
    (fields : List (String × JVal)) (key s : String)
    (hkey : key = "package" ∨ key = "crew")
    (hs : lookupField fields key = some (.jstr s))
    (hbad : identOk s = false) :
    ∃ e, invokeCrewRun cfg (.jobj fields) b = (.thrown e, []) ∧
      e.category = .validation := by
  have hdec : ∃ es, decodeInvokeOptions (.jobj fields) = .error es := by
    rcases hkey with hk | hk <;> subst hk
    · obtain ⟨es, hes⟩ := checkIdentField_bad pkgMsg hs hbad
      obtain ⟨es2, hes2⟩ :=
        collect2_error_left (checkIdentField fields "crew" crewMsg) hes
      obtain ⟨es3, hes3⟩ :=
        collect2_error_left
          (collect2 (checkStringField fields "input")
            (collect2 (checkPosNumOpt fields "timeout")
              (checkEnvOpt fields "env"))) hes2
      exact ⟨es3, by simp only [decodeInvokeOptions, hes3]⟩
    · obtain ⟨es, hes⟩ := checkIdentField_bad crewMsg hs hbad
      obtain ⟨es2, hes2⟩ :=
        collect2_error_right (checkIdentField fields "package" pkgMsg) hes
      obtain ⟨es3, hes3⟩ :=
        collect2_error_left
          (collect2 (checkStringField fields "input")
            (collect2 (checkPosNumOpt fields "timeout")
              (checkEnvOpt fields "env"))) hes2
      exact ⟨es3, by simp only [decodeInvokeOptions, hes3]⟩
  obtain ⟨es, hes⟩ := hdec
  refine ⟨mkCrewToolError (renderIssues es) .validation none, ?_, rfl⟩
  simp only [invokeCrewRun, validateOptions, hes]

/-- Witness for C3: `package = "bad name!"` is rejected as a validation
error and nothing is spawned. -/
theorem c3_validation_precedes_spawn_witness :
    ∃ e, invokeCrewRun cfgStd
        (.jobj [("package", .jstr "bad name!"), ("crew", .jstr "main"),
                ("input", .jstr "x")]) behaviorHangs
      = (.thrown e, []) ∧ e.category = .validation :=
  c3_validation_precedes_spawn cfgStd behaviorHangs _ "package" "bad name!"
    (Or.inl rfl) rfl rfl

/-- Claim C1 (code bug): when process creation itself fails (nonexistent
executable), `invokeCrew` does not resolve to a failed result.  The code
installs listeners only for stdout/stderr `data` and for `exit`; Node
reports a spawn failure through an `error` event and never emits `exit`,
so the unhandled `error` escapes as an uncaught exception and no
`CrewResult` is produced — contradicting the claim (and the design
document's own Properties 4/14) that spawn failure yields
`succeeded=false` without a raised exception. -/
theorem c1_spawn_failure_not_a_result :
    invokeCrewRun cfgBadExe rawOptsDemo behaviorSpawnFail =
      (Outcome.uncaughtError,
       [Event.spawned "/nonexistent/uv"
          ["run", "crew-agents", "run", "demo", "main", "--input", "x"]]) := rfl

/-- Claim C2 (code bug): on timeout the signal escalation does happen as
claimed (`SIGTERM` at the effective timeout, `SIGKILL` 5000 ms later, and
the duration 6000 ms is at least the 1000 ms effective timeout), but the
result is built through the ordinary non-zero-exit branch: its error
message is the collected stderr or the generic "Crew execution failed" —
it never contains the words "timed out" — and `exitCode` is always
populated (`code ?? 1` resolves the `null` code of a killed process to
1), never absent. -/
theorem c2_timeout_result_lacks_marker :
    invokeCrewRun cfgStd rawOptsTimeout1000 behaviorHangs =
      (Outcome.result
        { success := false, output := none,
          error := some "Crew execution failed", exitCode := some 1,
          duration := 6000 },
       [Event.spawned "uv" ["run", "crew-agents", "run", "test-package",
          "test-crew", "--input", "test"],
        Event.sigterm 1000, Event.sigkill 6000]) ∧
    containsStr "Crew execution failed" "timed out" = false := ⟨rfl, rfl⟩

/-- Claim C4: the deadline uses `options.timeout ?? config.defaultTimeout`
— the override, when present, fully replaces the default (and without an
override the default applies).  Against a long-running, SIGTERM-responsive
target with override `O < D`, the timer fires at `O` (the `SIGTERM` event
carries time `O`, independent of `D`) and the call returns a failed result
whose duration is `O`, well before `D` elapses. -/
theorem c4_timeout_override (cfg : CrewToolConfig) (opts : InvokeCrewOptions)
    (b : ProcBehavior) (O : Int)
    (hvalid : optionsValid opts = true)
    (hO : opts.timeout = some O) (hOD : O < cfg.defaultTimeout)
    (hspawn : b.spawnOk = true) (hnat : b.natExit = none)
    (hterm : b.termDelay = some 0) (htc : b.termCode = none) :
    effectiveTimeout opts cfg = O ∧
    (∀ opts2 : InvokeCrewOptions, opts2.timeout = none →
        effectiveTimeout opts2 cfg = cfg.defaultTimeout) ∧
    ∃ r : CrewResult,
      invokeCrewRun cfg (encodeInvokeOptions opts) b
        = (.result r,
           [Event.spawned cfg.pythonExecutable (spawnArgs opts),
            Event.sigterm O, Event.sigkill (O + graceMs)]) ∧
      r.success = false ∧ r.duration = O ∧ r.duration < cfg.defaultTimeout := by
  have heff : effectiveTimeout opts cfg = O := by
    simp [effectiveTimeout, hO]
  refine ⟨heff, fun opts2 h2 => by simp [effectiveTimeout, h2], ?_⟩
  have hdec := decode_encode opts hvalid
  have hpost : postTermExit O b = (O, none) := by
    simp [postTermExit, hterm, htc, hnat, earlier, graceMs]
  refine ⟨buildResult b 1 O, ?_, ?_, ?_, ?_⟩
  · simp only [invokeCrewRun, validateOptions, hdec, hspawn, if_true, hnat,
               heff, hpost, Option.getD]
  · simp [buildResult]
  · simp [buildResult]
  · simpa [buildResult] using hOD

/-- Witness for C4: `D = 300000`, `O = 50` — the run times out at 50 ms. -/
theorem c4_timeout_override_witness :
    effectiveTimeout optsOverride50 cfgStd = 50 ∧
    (∀ opts2 : InvokeCrewOptions, opts2.timeout = none →
        effectiveTimeout opts2 cfgStd = cfgStd.defaultTimeout) ∧
    ∃ r : CrewResult,
      invokeCrewRun cfgStd (encodeInvokeOptions optsOverride50)
          behaviorLongCooperative
        = (.result r,
           [Event.spawned cfgStd.pythonExecutable (spawnArgs optsOverride50),
            Event.sigterm 50, Event.sigkill (50 + graceMs)]) ∧
      r.success = false ∧ r.duration = 50 ∧
      r.duration < cfgStd.defaultTimeout :=
  c4_timeout_override cfgStd optsOverride50 behaviorLongCooperative 50
    rfl rfl (by decide) rfl rfl rfl rfl

/-- Claim C6: on a natural exit at or before the deadline, exit code 0
yields `success=true`, `exitCode=0` and `output` equal to the collected
standard output with surrounding whitespace trimmed (an empty stdout
trims to `""` and still succeeds); a non-zero code `c` yields
`success=false`, `exitCode=c` and `error` equal to the collected standard
error when non-empty and the generic exit-failure message otherwise. -/
theorem c6_natural_exit (cfg : CrewToolConfig) (opts : InvokeCrewOptions)
    (b : ProcBehavior) (t c : Int)
    (hvalid : optionsValid opts = true)
    (hspawn : b.spawnOk = true)
    (hnat : b.natExit = some (t, some c))
    (ht : t ≤ effectiveTimeout opts cfg) :
    ∃ ev : List Event,
      (c = 0 →
        invokeCrewRun cfg (encodeInvokeOptions opts) b
          = (.result
              { success := true,
                output := some (jsTrim (collectedStdout b)), error := none,
                exitCode := some 0, duration := t }, ev)) ∧
      (c ≠ 0 →
        invokeCrewRun cfg (encodeInvokeOptions opts) b
          = (.result
              { success := false, output := none,
                error := some (if collectedStderr b = "" then
                    "Crew execution failed" else collectedStderr b),
                exitCode := some c, duration := t }, ev)) := by
  have hdec := decode_encode opts hvalid
  refine ⟨[Event.spawned cfg.pythonExecutable (spawnArgs opts)], ?_, ?_⟩
  · intro hc
    subst hc
    simp [invokeCrewRun, validateOptions, hdec, hspawn, hnat, ht, buildResult]
  · intro hc
    simp [invokeCrewRun, validateOptions, hdec, hspawn, hnat, ht, buildResult, hc]

/-- Witness for C6: a process exiting 0 with padded stdout succeeds with
the trimmed output; a process exiting 2 with "boom" on stderr fails with
`error = "boom"` and `exitCode = 2`. -/
theorem c6_natural_exit_witness :
    (∃ ev, invokeCrewRun cfgStd (encodeInvokeOptions optsDemo) behaviorExit0
      = (.result
          { success := true,
            output := some (jsTrim (collectedStdout behaviorExit0)),
            error := none, exitCode := some 0, duration := 40 }, ev)) ∧
    (∃ ev, invokeCrewRun cfgStd (encodeInvokeOptions optsDemo) behaviorExit2
      = (.result
          { success := false, output := none,
            error := some (if collectedStderr behaviorExit2 = "" then
                "Crew execution failed" else collectedStderr behaviorExit2),
            exitCode := some 2, duration := 40 }, ev)) := by
  constructor
  · obtain ⟨ev, h0, -⟩ :=
      c6_natural_exit cfgStd optsDemo behaviorExit0 40 0 rfl rfl rfl (by decide)
    exact ⟨ev, h0 rfl⟩
  · obtain ⟨ev, -, h2⟩ :=
      c6_natural_exit cfgStd optsDemo behaviorExit2 40 2 rfl rfl rfl (by decide)
    exact ⟨ev, h2 (by decide)⟩

theorem lookupField_append_ne (fields : List (String × JVal)) (k : String)
    (v : JVal) (key : String) (h : key ≠ k) :
    lookupField (fields ++ [(k, v)]) key = lookupField fields key := by
  induction fields with
  | nil => simp [lookupField, h]
  | cons hd tl ih =>
    obtain ⟨k2, v2⟩ := hd
    by_cases h2 : key = k2 <;> simp [lookupField, h2, ih]

theorem checkStrDefault_congr {f1 f2 : List (String × JVal)} (key dflt : String)
    (h : lookupField f1 key = lookupField f2 key) :
    checkStrDefault f1 key dflt = checkStrDefault f2 key dflt := by
  unfold checkStrDefault
  rw [h]

theorem checkStrOpt_congr {f1 f2 : List (String × JVal)} (key : String)
    (h : lookupField f1 key = lookupField f2 key) :
    checkStrOpt f1 key = checkStrOpt f2 key := by
  unfold checkStrOpt
  rw [h]

theorem checkPosNumDefault_congr {f1 f2 : List (String × JVal)} (key : String)
    (dflt : Int) (h : lookupField f1 key = lookupField f2 key) :
    checkPosNumDefault f1 key dflt = checkPosNumDefault f2 key dflt := by
  unfold checkPosNumDefault
  rw [h]

theorem checkEnvOpt_congr {f1 f2 : List (String × JVal)} (key : String)
    (h : lookupField f1 key = lookupField f2 key) :
    checkEnvOpt f1 key = checkEnvOpt f2 key := by
  unfold checkEnvOpt
  rw [h]

theorem validateConfig_ignores_unknown (fields : List (String × JVal))
    (k : String) (v : JVal) (hk : isSchemaConfigKey k = false) :
    validateConfig (.jobj (fields ++ [(k, v)])) =
      validateConfig (.jobj fields) := by
  simp only [isSchemaConfigKey, Bool.or_eq_false_iff, beq_eq_false_iff_ne] at hk
  obtain ⟨⟨⟨h1, h2⟩, h3⟩, h4⟩ := hk
  simp only [validateConfig, decodeConfig]
  rw [checkStrDefault_congr "pythonExecutable" "uv"
        (lookupField_append_ne fields k v _ (Ne.symm h1)),
      checkStrOpt_congr "crewAgentsPath"
        (lookupField_append_ne fields k v _ (Ne.symm h2)),
      checkPosNumDefault_congr "defaultTimeout" 300000
        (lookupField_append_ne fields k v _ (Ne.symm h3)),
      checkEnvOpt_congr "env"
        (lookupField_append_ne fields k v _ (Ne.symm h4))]

theorem validateConfig_rejects_nonpos (n : Int) (hn : n ≤ 0) :
    validateConfig (.jobj [("defaultTimeout", .jnum n)]) =
      .error [⟨["defaultTimeout"], "Number must be greater than 0"⟩] := by
  have hn2 : ¬(0 < n) := by omega
  simp [validateConfig, decodeConfig, checkStrDefault, checkStrOpt,
        checkPosNumDefault, checkEnvOpt, lookupField, collect2, hn2]

theorem validateConfig_pos {v : JVal} {cfg : CrewToolConfig}
    (h : validateConfig v = .ok cfg) : 0 < cfg.defaultTimeout := by
  cases v with
  | jobj fields =>
    simp only [validateConfig, decodeConfig] at h
    split at h
    · next x heq =>
      obtain ⟨⟨xp, xc⟩, xd, xe⟩ := x
      cases h
      obtain ⟨h1, h2⟩ := collect2_ok_iff.mp heq
      obtain ⟨h21, h22⟩ := collect2_ok_iff.mp h2
      unfold checkPosNumDefault at h21
      split at h21
      · cases h21
        show (0 : Int) < 300000
        decide
      · split at h21
        · next hn =>
          cases h21
          exact hn
        · exact absurd h21 (by simp)
      · exact absurd h21 (by simp)
    · exact absurd h (by simp)
  | jstr s => exact absurd h (by simp [validateConfig, decodeConfig])
  | jnum n => exact absurd h (by simp [validateConfig, decodeConfig])
  | jbool b => exact absurd h (by simp [validateConfig, decodeConfig])
  | jnull => exact absurd h (by simp [validateConfig, decodeConfig])
  | jarr l => exact absurd h (by simp [validateConfig, decodeConfig])

/-- Claim C7 counterexample: a `defaultTimeout` of `-7` is rejected, but
the validation error does not name the offending value: the single issue's
path is `["defaultTimeout"]` and its message is zod's
"Number must be greater than 0" — the string `-7` occurs in neither, so
the claim's "message naming the offending value" is false on the code. -/
theorem c7_message_lacks_value_counterexample :
    validateConfig (.jobj [("defaultTimeout", .jnum (-7))]) =
      .error [⟨["defaultTimeout"], "Number must be greater than 0"⟩] ∧
    containsStr "Number must be greater than 0" "-7" = false ∧
    containsStr "defaultTimeout" "-7" = false :=
  ⟨validateConfig_rejects_nonpos (-7) (by decide), rfl, rfl⟩

/-- Claim C7 (amended): the configuration validator either returns a
normalized configuration or raises; unknown fields are ignored; a missing
executable path defaults to the discovery value `"uv"` and a missing
default timeout to `300000`; a present default timeout that is zero or
negative is rejected with a validation error identifying the offending
field and the violated positivity constraint (but not the offending value
itself); and every accepted configuration satisfies
`defaultTimeout > 0`. -/
theorem c7_config_validation_amended :
    (∀ (fields : List (String × JVal)) (k : String) (v : JVal),
        isSchemaConfigKey k = false →
        validateConfig (.jobj (fields ++ [(k, v)])) =
          validateConfig (.jobj fields)) ∧
    validateConfig (.jobj []) =
      .ok { pythonExecutable := "uv", crewAgentsPath := none,
            defaultTimeout := 300000, env := none } ∧
    (∀ n : Int, n ≤ 0 →
        validateConfig (.jobj [("defaultTimeout", .jnum n)]) =
          .error [⟨["defaultTimeout"], "Number must be greater than 0"⟩]) ∧
    (∀ (v : JVal) (cfg : CrewToolConfig),
        validateConfig v = .ok cfg → 0 < cfg.defaultTimeout) :=
  ⟨validateConfig_ignores_unknown, rfl, validateConfig_rejects_nonpos,
   fun _ _ => validateConfig_pos⟩

/-- Witness for the amended C7: an unknown `bogus` field is ignored and a
`-3` default timeout is rejected with the positivity message. -/
theorem c7_config_validation_amended_witness :
    validateConfig
        (.jobj ([("defaultTimeout", .jnum 17)] ++ [("bogus", .jbool true)]))
      = validateConfig (.jobj [("defaultTimeout", .jnum 17)]) ∧
    validateConfig (.jobj [("defaultTimeout", .jnum (-3))]) =
      .error [⟨["defaultTimeout"], "Number must be greater than 0"⟩] :=
  ⟨c7_config_validation_amended.1 [("defaultTimeout", .jnum 17)] "bogus"
      (.jbool true) rfl,
   c7_config_validation_amended.2.2.1 (-3) (by decide)⟩

/-- Claim C8: the child process observes the ambient environment overlaid
with the configuration's base environment overlaid with the request's
extra environment — an extra-environment entry always wins, a base entry
wins where no extra entry exists, and the ambient value shows through
where neither is defined. -/
theorem c8_env_merge_precedence (ambient : EnvMap) (cfg : CrewToolConfig)
    (opts : InvokeCrewOptions) (k : String) :
    (∀ v, optEnv opts.env k = some v → childEnv ambient cfg opts k = some v) ∧
    (optEnv opts.env k = none →
      ∀ v, optEnv cfg.env k = some v → childEnv ambient cfg opts k = some v) ∧
    (optEnv opts.env k = none → optEnv cfg.env k = none →
      childEnv ambient cfg opts k = ambient k) := by
  refine ⟨?_, ?_, ?_⟩
  · intro v hv
    simp [childEnv, overlayEnv, hv]
  · intro h0 v hv
    simp [childEnv, overlayEnv, h0, hv]
  · intro h0 h1
    simp [childEnv, overlayEnv, h0, h1]

/-- Witness for C8: `baseEnv={A:"1"}` with `extraEnv={A:"2", B:"3"}`
yields a child observing `A=2` and `B=3`. -/
theorem c8_env_merge_precedence_witness :
    childEnv (fun _ => none) cfgEnvA optsEnvAB "A" = some "2" ∧
    childEnv (fun _ => none) cfgEnvA optsEnvAB "B" = some "3" :=
  ⟨(c8_env_merge_precedence (fun _ => none) cfgEnvA optsEnvAB "A").1 "2" rfl,
   (c8_env_merge_precedence (fun _ => none) cfgEnvA optsEnvAB "B").1 "3" rfl⟩

/-- Claim C9: on any record already satisfying the invocation schema,
`validateInvokeOptions` returns its input unchanged field by field, and it
is idempotent: every output of a successful validation validates to
itself. -/
theorem c9_validate_invoke_options_idem :
    (∀ o : InvokeCrewOptions, optionsValid o = true →
        validateInvokeOptions (encodeInvokeOptions o) =
          .ok (encodeInvokeOptions o)) ∧
    (∀ v w : JVal, validateInvokeOptions v = .ok w →
        validateInvokeOptions w = .ok w) := by
  have key : ∀ o : InvokeCrewOptions, optionsValid o = true →
      validateInvokeOptions (encodeInvokeOptions o) =
        .ok (encodeInvokeOptions o) := by
    intro o h
    simp [validateInvokeOptions, decode_encode o h, Except.map]
  refine ⟨key, ?_⟩
  intro v w h
  rw [validateInvokeOptions] at h
  cases hd : decodeInvokeOptions v with
  | error es =>
    rw [hd] at h
    exact absurd h (by simp [Except.map])
  | ok o =>
    rw [hd] at h
    simp only [Except.map] at h
    cases h
    exact key o (decode_valid hd)

/-- Witness for C9: a fully-populated valid record validates to itself,
and validating that output again is a fixed point. -/
theorem c9_validate_invoke_options_idem_witness :
    validateInvokeOptions (encodeInvokeOptions optsEnvAB) =
      .ok (encodeInvokeOptions optsEnvAB) ∧
    validateInvokeOptions (encodeInvokeOptions optsOverride50) =
      .ok (encodeInvokeOptions optsOverride50) :=
  ⟨c9_validate_invoke_options_idem.1 optsEnvAB rfl,
   c9_validate_invoke_options_idem.1 optsOverride50 rfl⟩

/-- Claim C10: `new CrewToolError(message, category, details)` yields an
`Error` named "CrewToolError" whose `message`, `category` and `details`
equal the constructor arguments, with `category` drawn from the
five-element enumeration `config | validation | subprocess | crew |
communication`. -/
theorem c10_crew_tool_error_fields (m : String) (c : ErrorCategory)
    (d : Option (List (String × JVal))) :
    (mkCrewToolError m c d).name = "CrewToolError" ∧
    (mkCrewToolError m c d).message = m ∧
    (mkCrewToolError m c d).category = c ∧
    (mkCrewToolError m c d).details = d ∧
    (c = .config ∨ c = .validation ∨ c = .subprocess ∨ c = .crew ∨
     c = .communication) := by
  refine ⟨rfl, rfl, rfl, rfl, ?_⟩
  cases c <;> simp
